import Mathlib

/-!
# Verification of `sync.py`

A shallow embedding of the release-resolution and artifact-synchronization
pipeline of `sync.py`, together with theorems settling the specified
properties of its transport layer (`safe_request`), artifact fetcher
(`download_file`), tag resolver (`get_tags_sorted_by_commit_time`), main
orchestrator (`main`), and size formatting.

Network effects are modelled by passing the outcome of each underlying HTTP
call explicitly (`NetOutcome`, or an `Except DownloadError`-valued oracle);
exceptions become `Except` values; the rate-limit sleeps of the resolver are
recorded as an explicit trace of sleep durations.
-/

namespace Sync

/-! ## Transport (`safe_request`, lines 27–55)

`DownloadError` is a single Python exception class carrying a message; each
constructor below corresponds to one `except` branch of `safe_request`, and
`DownloadError.message` renders the exact message each branch formats. -/

/-- The four wrapping branches of `safe_request`: `requests.exceptions.Timeout`,
`requests.exceptions.ConnectionError`, `requests.exceptions.HTTPError`, and the
final `except Exception` branch (`unknown`). -/
inductive DownloadError where
  | timeout (url : String)
  | connectionFailure (url : String)
  | httpStatus (code : Nat) (url : String)
  | unknown (msg : String)
deriving DecidableEq, Repr

/-- The message each `except` branch of `safe_request` formats (lines 48–55). -/
def DownloadError.message : DownloadError → String
  | .timeout url => "请求超时: " ++ url
  | .connectionFailure url => "连接失败: " ++ url
  | .httpStatus code url => "HTTP错误 " ++ toString code ++ ": " ++ url
  | .unknown msg => "未知错误: " ++ msg

/-- Outcome of the underlying `requests.get/post/delete/head` call: a response
with a status code, or one of the exceptions the `except` clauses distinguish. -/
inductive NetOutcome where
  | resp (status : Nat)
  | raiseTimeout
  | raiseConnection
  | raiseOther (msg : String)
deriving DecidableEq, Repr

/-- The method names accepted by the `if/elif` dispatch of `safe_request`. -/
def SUPPORTED_METHODS : List String := ["GET", "POST", "DELETE", "HEAD"]

/-- Python's `str.upper()` on the method name: uppercase each character
(method names are ASCII, where per-character uppercasing is exactly
`Char.toUpper`). -/
def upper (s : String) : String := (s.toList.map Char.toUpper).asString

/-- `safe_request` (lines 32–55): dispatch on `method.upper()`; an unsupported
method raises `ValueError` *inside* the `try`, which the final
`except Exception` branch wraps as the unknown-error `DownloadError`.
`response.raise_for_status()` raises `HTTPError` for status codes in
`[400, 600)`. On success the response (modelled by its status code) is
returned. -/
def safe_request (url : String) (method : String) (net : NetOutcome) :
    Except DownloadError Nat :=
  if SUPPORTED_METHODS.contains (upper method) then
    match net with
    | .resp status =>
      if 400 ≤ status ∧ status < 600 then .error (.httpStatus status url)
      else .ok status
    | .raiseTimeout => .error (.timeout url)
    | .raiseConnection => .error (.connectionFailure url)
    | .raiseOther msg => .error (.unknown msg)
  else
    .error (.unknown ("不支持的HTTP方法: " ++ method))

/-! ## Size formatting (`download_file`, lines 74–81) -/

/-- Nearest integer to `num / den`, ties to even — the rounding of Python's
fixed-point float formatting. -/
def round_half_even (num den : Nat) : Nat :=
  let q := num / den
  let r := num % den
  if 2 * r < den then q
  else if 2 * r > den then q + 1
  else if q % 2 = 0 then q else q + 1

/-- One-decimal fixed-point rendering of `num / den`, as Python's
`f"{num/den:.1f}"`. (Python formats the binary-float quotient; for the
power-of-two divisors used by `download_file` and at every input where the
quotient is an exact multiple of one tenth — the only points evaluated here —
this agrees with exact rational rounding.) -/
def fmt1f (num den : Nat) : String :=
  let t := round_half_even (num * 10) den
  toString (t / 10) ++ "." ++ toString (t % 10)

/-- The size-formatting chain of `download_file` (lines 74–81): strict `>`
comparisons against 1024³, 1024², 1024, with a plain byte count otherwise. -/
def format_size (total_size : Nat) : String :=
  if total_size > 1024 * 1024 * 1024 then fmt1f total_size (1024 * 1024 * 1024) ++ " GB"
  else if total_size > 1024 * 1024 then fmt1f total_size (1024 * 1024) ++ " MB"
  else if total_size > 1024 then fmt1f total_size 1024 ++ " KB"
  else toString total_size ++ " bytes"

/-! ## Artifact fetcher (`download_file`, lines 58–97) -/

/-- The HEAD response: `response_head.headers.get('content-length', 0)`,
absent modelled as `none` (read back as `0`). -/
structure HeadResponse where
  contentLength : Option Nat
deriving DecidableEq, Repr

/-- The write loop of `download_file` (lines 88–91): `iter_content` chunks are
written sequentially, skipping falsy (empty) chunks. The file contents are the
concatenation of the non-empty chunks. Bytes are modelled as `Nat`s. -/
def writeChunks (chunks : List (List Nat)) : List Nat :=
  (chunks.filter (fun c => !c.isEmpty)).flatten

/-- `download_file` (lines 58–97): filename defaults to the last `/`-segment of
the url; the HEAD probe runs first and its `DownloadError` — like the streaming
GET's — propagates out (re-raised by the `except DownloadError` handler at
line 95–97); on success the destination path and written bytes are produced. -/
def download_file (url : String) (filename : Option String)
    (head : Except DownloadError HeadResponse)
    (get : Except DownloadError (List (List Nat))) :
    Except DownloadError (String × List Nat) :=
  let fname := filename.getD ((url.splitOn "/").getLastD "")
  let filepath := "./data/" ++ fname
  match head with
  | .error e => .error e
  | .ok response_head =>
    let total_size := response_head.contentLength.getD 0
    let _size_str := format_size total_size
    match get with
    | .error e => .error e
    | .ok chunks => .ok (filepath, writeChunks chunks)

/-! ## Tag resolver (`get_tags_sorted_by_commit_time`, lines 180–233) -/

/-- A tag as listed by `GET /repos/{owner}/{repo}/tags`: its `name` and its
`commit.url` field (the fields the function reads). -/
structure RawTag where
  name : String
  commitUrl : String
deriving DecidableEq, Repr

/-- The fields the function reads from a fetched commit resource:
`commit.author.date`, `commit.message`, `commit.author.name`. -/
structure CommitInfo where
  date : String
  message : String
  author : String
deriving DecidableEq, Repr

/-- The enriched record built at lines 213–216: the tag's own fields plus
`commit_date`, `commit_message`, `author_name`. -/
structure EnrichedTag where
  name : String
  commitUrl : String
  commit_date : String
  commit_message : String
  author_name : String
deriving DecidableEq, Repr

/-- `commit_date_str.replace('Z', '+00:00')` (line 210): Python's `str.replace`
substitutes every occurrence of the single-character pattern. -/
def replaceZ : List Char → List Char
  | [] => []
  | c :: cs =>
    if c = 'Z' then '+' :: '0' :: '0' :: ':' :: '0' :: '0' :: replaceZ cs
    else c :: replaceZ cs

/-- Lines 209–216: the commit date string has its `Z` UTC marker replaced by
`+00:00` and is parsed and re-serialized by `datetime.fromisoformat(...)
.isoformat()`. GitHub serves canonical `YYYY-MM-DDTHH:MM:SSZ` dates, on which
that round-trip is the identity after the replacement; it is modelled as the
replacement alone. -/
def enrichTag (tag : RawTag) (commit : CommitInfo) : EnrichedTag :=
  { name := tag.name
    commitUrl := tag.commitUrl
    commit_date := (replaceZ commit.date.toList).asString
    commit_message := commit.message
    author_name := commit.author }

/-- The per-tag enrichment outcome: `some` enriched record when the commit
fetch succeeds, `none` when it raises `DownloadError` (the tag is skipped). -/
def enrichOpt (fetch : String → Except DownloadError CommitInfo)
    (tag : RawTag) : Option EnrichedTag :=
  match fetch tag.commitUrl with
  | .ok commit => some (enrichTag tag commit)
  | .error _ => none

/-- `SLEEP_TIME` constant (line 8). -/
def SLEEP_TIME : Nat := 3

/-- The enumeration loop of lines 198–227: `i` is the 1-based `enumerate`
index, `n` is `len(tags)`. Returns the enriched tags in listing order together
with the trace of `time.sleep` durations, in order. On a commit-fetch failure
the `continue` at line 223 jumps to the next iteration, skipping both the
append *and* the `if i < len(tags): time.sleep(SLEEP_TIME)` at lines 226–227;
on success the sleep runs whenever `i < n`. -/
def processTags (fetch : String → Except DownloadError CommitInfo) (n : Nat) :
    Nat → List RawTag → List EnrichedTag × List Nat
  | _, [] => ([], [])
  | i, tag :: rest =>
    match fetch tag.commitUrl with
    | .error _ => processTags fetch n (i + 1) rest
    | .ok commit =>
      let done := processTags fetch n (i + 1) rest
      (enrichTag tag commit :: done.1,
        if i < n then SLEEP_TIME :: done.2 else done.2)

/-- The sort key relation of line 230:
`tags_with_time.sort(key=lambda x: x['commit_date'], reverse=True)` compares
the `commit_date` strings, descending. -/
def byCommitDateDesc (a b : EnrichedTag) : Prop :=
  b.commit_date ≤ a.commit_date

instance : DecidableRel byCommitDateDesc := fun a b =>
  decidable_of_iff (b.commit_date.toList ≤ a.commit_date.toList)
    String.le_iff_toList_le.symm

instance : IsTotal EnrichedTag byCommitDateDesc :=
  ⟨fun a b => le_total b.commit_date a.commit_date⟩

instance : IsTrans EnrichedTag byCommitDateDesc :=
  ⟨fun _ _ _ hab hbc => le_trans hbc hab⟩

/-- Line 230: Python's `list.sort` is a stable sort; with `reverse=True` it
keeps elements with equal keys in their original order. Modelled by insertion
sort under the key-descending relation, which places each element before the
first already-placed element whose key is `≤` its own — the same stable
descending order. -/
def sortTags (l : List EnrichedTag) : List EnrichedTag :=
  l.insertionSort byCommitDateDesc

/-- The two shapes `get_tags_sorted_by_commit_time` returns: the
`{"error": str(e)}` dict (line 193) or the sorted list (line 233). -/
inductive TagsResult where
  | err (msg : String)
  | ok (tags : List EnrichedTag)
deriving DecidableEq, Repr

/-- `get_tags_sorted_by_commit_time` (lines 180–233). `listFetch` is the
outcome of the tag-list request (lines 186–188); `fetch` maps each tag's
`commit.url` to the outcome of its commit request (line 205). The second
component is the trace of rate-limit sleep durations the call performs. -/
def get_tags_sorted_by_commit_time
    (listFetch : Except DownloadError (List RawTag))
    (fetch : String → Except DownloadError CommitInfo) :
    TagsResult × List Nat :=
  match listFetch with
  | .error e => (.err e.message, [])
  | .ok tags =>
    let processed := processTags fetch tags.length 1 tags
    (.ok (sortTags processed.1), processed.2)

/-! ## Source routines (`get_DockerDesktop`, `get_WSL`, lines 100–144) -/

/-- A release asset: the `name` and `browser_download_url` fields read by the
routines. -/
structure Asset where
  name : String
  browser_download_url : String
deriving DecidableEq, Repr

/-- The fields read from the `releases/latest` payload. -/
structure Release where
  tag_name : String
  assets : List Asset
deriving DecidableEq, Repr

/-- The target list of `get_DockerDesktop` (lines 110–114). -/
def files_to_download (tag_name : String) : List String :=
  ["app-Windows-x86.asar", "app-Windows-x86-v2beta.asar",
    "DockerDesktop-" ++ tag_name ++ "-Windows-x86.exe"]

/-- The asset loop of `get_DockerDesktop` (lines 116–118): each asset whose
name is in the target list is downloaded in order; a `DownloadError` from
`download_file` aborts the loop (the outer `except` returns `False`).
Returns the routine's boolean result and the urls successfully downloaded. -/
def ddLoop (dl : String → Except DownloadError String) (files : List String) :
    List Asset → Bool × List String
  | [] => (true, [])
  | asset :: rest =>
    if files.contains asset.name then
      match dl asset.browser_download_url with
      | .ok _ =>
        let done := ddLoop dl files rest
        (done.1, asset.browser_download_url :: done.2)
      | .error _ => (false, [])
    else ddLoop dl files rest

/-- `get_DockerDesktop` (lines 100–123): a failed release fetch (or any
exception) is caught and yields `False`; otherwise the asset loop runs and the
function returns `True` (line 120). `release` is the outcome of the
`releases/latest` request, `dl` the outcome of each `download_file` call. -/
def get_DockerDesktop (release : Except DownloadError Release)
    (dl : String → Except DownloadError String) : Bool × List String :=
  match release with
  | .error _ => (false, [])
  | .ok data => ddLoop dl (files_to_download data.tag_name) data.assets

/-- The asset loop of `get_WSL` (lines 135–141): on the first asset named
`wsl.{tag_name}.0.x64.msi` it downloads and returns `True` (a download
exception yields `False` via the outer handler); if no asset matches it falls
through to `return False` at line 141. -/
def wslLoop (dl : String → Except DownloadError String) (target : String) :
    List Asset → Bool
  | [] => false
  | asset :: rest =>
    if asset.name = target then
      match dl asset.browser_download_url with
      | .ok _ => true
      | .error _ => false
    else wslLoop dl target rest

/-- `get_WSL` (lines 126–144). -/
def get_WSL (release : Except DownloadError Release)
    (dl : String → Except DownloadError String) : Bool :=
  match release with
  | .error _ => false
  | .ok data => wslLoop dl ("wsl." ++ data.tag_name ++ ".0.x64.msi") data.assets

/-! ## Orchestrator (`main`, lines 236–292) -/

/-- The fixed routine sequence of lines 274–281, paired with each routine's
boolean outcome (every routine catches its own exceptions and returns a
boolean). -/
def SOURCES (dd wsl wsl2 docker : Bool) : List (String × Bool) :=
  [("DockerDesktop", dd), ("WSL", wsl), ("WSL2", wsl2), ("docker", docker)]

/-- The download phase of `main` (lines 271–282): each routine in the list is
invoked unconditionally in order; the success count accumulates, and the trace
records every routine invoked. -/
def downloadPhase (routines : List (String × Bool)) : Nat × List String :=
  routines.foldl
    (fun acc r => (if r.2 then acc.1 + 1 else acc.1, acc.2 ++ [r.1])) (0, [])

/-- `main` (lines 236–292): a resolver error dict terminates with `-1`
(lines 245–247); an empty tag list terminates with `-1` (lines 249–251);
otherwise the four source routines run and the exit status is `0` exactly when
`success_count >= 4` (line 284). -/
def main (resolved : TagsResult) (dd wsl wsl2 docker : Bool) : Int :=
  match resolved with
  | .err _ => -1
  | .ok [] => -1
  | .ok (_ :: _) =>
    if (downloadPhase (SOURCES dd wsl wsl2 docker)).1 ≥ 4 then 0 else -1

/-! ## Concrete fixtures (inputs for witnesses and counterexamples) -/

/-- A tag whose commit resolves to 2023-01-01. -/
def tagV1 : RawTag := ⟨"v1", "u1"⟩

/-- A tag whose commit resolves to 2024-01-01. -/
def tagV2 : RawTag := ⟨"v2", "u2"⟩

/-- A tag whose commit fetch fails. -/
def tagV3 : RawTag := ⟨"v3", "u3"⟩

/-- A tag whose commit resolves to 2024-01-01, tying with `tagV2`. -/
def tagV4 : RawTag := ⟨"v4", "u4"⟩

/-- Commit-fetch oracle for the fixtures: `u1`, `u2`, `u4` succeed with the
dates above; every other url fails with a timeout. -/
def exFetch : String → Except DownloadError CommitInfo := fun u =>
  if u = "u1" then .ok ⟨"2023-01-01T00:00:00Z", "m1", "alice"⟩
  else if u = "u2" then .ok ⟨"2024-01-01T00:00:00Z", "m2", "bob"⟩
  else if u = "u4" then .ok ⟨"2024-01-01T00:00:00Z", "m4", "carol"⟩
  else .error (.timeout u)

/-- `tagV1` enriched by `exFetch`. -/
def enrV1 : EnrichedTag := ⟨"v1", "u1", "2023-01-01T00:00:00+00:00", "m1", "alice"⟩

/-- `tagV2` enriched by `exFetch`. -/
def enrV2 : EnrichedTag := ⟨"v2", "u2", "2024-01-01T00:00:00+00:00", "m2", "bob"⟩

/-- `tagV4` enriched by `exFetch`. -/
def enrV4 : EnrichedTag := ⟨"v4", "u4", "2024-01-01T00:00:00+00:00", "m4", "carol"⟩

/-- A DockerDesktop release none of whose assets is a target file. -/
def ddRelease : Release := ⟨"v1.0", [⟨"other.txt", "https://h/other.txt"⟩]⟩

/-- A WSL release without the expected installer asset. -/
def wslRelease : Release := ⟨"2.0.0", [⟨"readme.md", "https://h/readme.md"⟩]⟩

/-- A download oracle that always succeeds. -/
def exDl : String → Except DownloadError String := fun u => .ok ("./data/" ++ u)

/-! ## Helper lemmas -/

/-- One-step unfolding of the enumeration loop on a non-empty listing. -/
theorem processTags_cons (fetch : String → Except DownloadError CommitInfo)
    (n i : Nat) (tag : RawTag) (rest : List RawTag) :
    processTags fetch n i (tag :: rest) =
      match fetch tag.commitUrl with
      | .error _ => processTags fetch n (i + 1) rest
      | .ok commit =>
        (enrichTag tag commit :: (processTags fetch n (i + 1) rest).1,
          if i < n then SLEEP_TIME :: (processTags fetch n (i + 1) rest).2
          else (processTags fetch n (i + 1) rest).2) := rfl

/-- The enriched tags accumulate, in listing order, exactly the tags whose
commit fetch succeeded. -/
theorem processTags_fst (fetch : String → Except DownloadError CommitInfo)
    (n : Nat) : ∀ (i : Nat) (ts : List RawTag),
    (processTags fetch n i ts).1 = ts.filterMap (enrichOpt fetch) := by
  intro i ts
  induction ts generalizing i with
  | nil => rfl
  | cons tag rest ih =>
    rw [processTags_cons, List.filterMap_cons]
    unfold enrichOpt
    cases h : fetch tag.commitUrl with
    | error e => exact ih (i + 1)
    | ok commit => simpa using ih (i + 1)

/-- The sleep trace of the enumeration loop: one `SLEEP_TIME` entry per
successfully enriched tag among all but the last listed tag. The index
invariant `i + ts.length = n + 1` holds at every call reached from
`get_tags_sorted_by_commit_time` (which starts at `i = 1` with all `n`
tags remaining). -/
theorem processTags_sleeps (fetch : String → Except DownloadError CommitInfo)
    (n : Nat) : ∀ (i : Nat) (ts : List RawTag), i + ts.length = n + 1 →
    (processTags fetch n i ts).2 =
      List.replicate
        (ts.dropLast.countP (fun t => (enrichOpt fetch t).isSome)) SLEEP_TIME := by
  intro i ts
  induction ts generalizing i with
  | nil => intro _; rfl
  | cons tag rest ih =>
    intro hlen
    have hrec := ih (i + 1) (by simp only [List.length_cons] at hlen; omega)
    rw [processTags_cons]
    cases h : fetch tag.commitUrl with
    | error e =>
      dsimp only
      rw [hrec]
      cases rest with
      | nil => rfl
      | cons tag2 rest2 =>
        rw [List.dropLast_cons₂, List.countP_cons]
        have : (enrichOpt fetch tag).isSome = false := by simp [enrichOpt, h]
        simp [this]
    | ok commit =>
      dsimp only
      cases rest with
      | nil =>
        have hi : ¬ i < n := by
          simp only [List.length_cons, List.length_nil] at hlen; omega
        rw [if_neg hi, hrec]
        rfl
      | cons tag2 rest2 =>
        have hi : i < n := by simp only [List.length_cons] at hlen; omega
        rw [if_pos hi, hrec, List.dropLast_cons₂, List.countP_cons]
        have : (enrichOpt fetch tag).isSome = true := by simp [enrichOpt, h]
        simp [this, List.replicate_succ]

/-- Stability of `orderedInsert` under the key-descending relation: filtering
at any fixed `commit_date` value commutes with the insertion, the inserted
element landing in front of its date class. Holds because the insertion never
passes over an element with the same key. -/
theorem filter_orderedInsert_commitDate (d : String) (x : EnrichedTag) :
    ∀ L : List EnrichedTag,
      (L.orderedInsert byCommitDateDesc x).filter (fun et => et.commit_date == d) =
        if x.commit_date == d
        then x :: L.filter (fun et => et.commit_date == d)
        else L.filter (fun et => et.commit_date == d) := by
  intro L
  induction L with
  | nil =>
    by_cases hx : x.commit_date = d <;>
      simp [List.orderedInsert, List.filter_cons, hx]
  | cons b L ih =>
    by_cases hr : byCommitDateDesc x b
    · rw [List.orderedInsert_of_le _ _ hr]
      by_cases hx : x.commit_date = d <;> by_cases hb : b.commit_date = d <;>
        simp [List.filter_cons, hx, hb]
    · simp only [List.orderedInsert, if_neg hr]
      by_cases hx : x.commit_date = d
      · have hb : ¬ b.commit_date = d := by
          intro hbd
          exact hr (le_of_eq (hbd.trans hx.symm))
        simp [List.filter_cons, hb, hx, ih]
      · by_cases hb : b.commit_date = d <;> simp [List.filter_cons, hb, hx, ih]

/-- Stability of the resolver's sort: the elements at any fixed `commit_date`
appear in the sorted output in their pre-sort (listing) order. -/
theorem filter_sortTags (d : String) :
    ∀ l : List EnrichedTag,
      (sortTags l).filter (fun et => et.commit_date == d) =
        l.filter (fun et => et.commit_date == d) := by
  intro l
  induction l with
  | nil => rfl
  | cons x xs ih =>
    simp only [sortTags, List.insertionSort] at ih ⊢
    rw [filter_orderedInsert_commitDate, ih]
    by_cases hx : x.commit_date = d <;> simp [List.filter_cons, hx]

/-- The resolver's sort yields a sequence pairwise ordered by commit date,
descending. -/
theorem sortTags_sorted (l : List EnrichedTag) :
    (sortTags l).Pairwise byCommitDateDesc :=
  List.sorted_insertionSort byCommitDateDesc l

/-- Membership is preserved by the resolver's sort. -/
theorem mem_sortTags {x : EnrichedTag} {l : List EnrichedTag} :
    x ∈ sortTags l ↔ x ∈ l :=
  List.mem_insertionSort byCommitDateDesc

/-- The bytes written by the chunk loop measure the sum of all chunk lengths
(skipped empty chunks contribute zero). -/
theorem writeChunks_length (chunks : List (List Nat)) :
    (writeChunks chunks).length = (chunks.map List.length).sum := by
  induction chunks with
  | nil => rfl
  | cons c cs ih =>
    by_cases h : c.isEmpty <;>
      simp_all [writeChunks, List.filter_cons, h, List.isEmpty_iff,
        List.length_eq_zero]

/-- When no asset name is in the target list, the DockerDesktop asset loop
downloads nothing and finishes cleanly. -/
theorem ddLoop_no_match (dl : String → Except DownloadError String)
    (files : List String) :
    ∀ assets : List Asset, (∀ a ∈ assets, a.name ∉ files) →
      ddLoop dl files assets = (true, []) := by
  intro assets h
  induction assets with
  | nil => rfl
  | cons a rest ih =>
    have hna : files.contains a.name = false := by
      simpa using h a (by simp)
    simp only [ddLoop, hna, Bool.false_eq_true, if_false]
    exact ih (fun x hx => h x (List.mem_cons_of_mem _ hx))

/-- When no asset bears the expected installer name, the WSL asset loop falls
through to `False`. -/
theorem wslLoop_no_match (dl : String → Except DownloadError String)
    (target : String) :
    ∀ assets : List Asset, (∀ a ∈ assets, a.name ≠ target) →
      wslLoop dl target assets = false := by
  intro assets h
  induction assets with
  | nil => rfl
  | cons a rest ih =>
    have hna : ¬ a.name = target := h a (by simp)
    simp only [wslLoop, if_neg hna]
    exact ih (fun x hx => h x (List.mem_cons_of_mem _ hx))

/-- A successful resolution yields exactly the sorted enrichment of the tags
whose commit fetch succeeded. -/
theorem get_tags_ok (tags : List RawTag)
    (fetch : String → Except DownloadError CommitInfo) :
    (get_tags_sorted_by_commit_time (.ok tags) fetch).1 =
      .ok (sortTags (tags.filterMap (enrichOpt fetch))) := by
  simp only [get_tags_sorted_by_commit_time, processTags_fst]

/-! ## Claim theorems -/

/-- Claim C1: every successfully resolved sequence is sorted by commit
timestamp in descending order — whenever tag A precedes tag B, A's
`commit_date` is ≥ B's — and tags with equal commit timestamps keep their
original listing order: at every fixed date the resolved sequence, filtered to
that date, equals the enriched listing-order sequence filtered to that date. -/
theorem c1_sorted_stable (tags : List RawTag)
    (fetch : String → Except DownloadError CommitInfo)
    (res : List EnrichedTag)
    (h : (get_tags_sorted_by_commit_time (.ok tags) fetch).1 = .ok res) :
    res.Pairwise (fun a b => b.commit_date ≤ a.commit_date) ∧
      ∀ d : String,
        res.filter (fun et => et.commit_date == d) =
          (tags.filterMap (enrichOpt fetch)).filter
            (fun et => et.commit_date == d) := by
  have hres : res = sortTags (tags.filterMap (enrichOpt fetch)) := by
    rw [get_tags_ok] at h
    exact (TagsResult.ok.inj h).symm
  subst hres
  exact ⟨sortTags_sorted _, fun d => filter_sortTags d _⟩

/-- Witness for C1 at the listing `[v1 (2023), v2 (2024), v4 (2024)]`: the
resolver returns `[v2, v4, v1]` — descending, with the tied `v2`, `v4` in
listing order. -/
theorem c1_witness :
    List.Pairwise (fun a b : EnrichedTag => b.commit_date ≤ a.commit_date)
        [enrV2, enrV4, enrV1] ∧
      ∀ d : String,
        [enrV2, enrV4, enrV1].filter (fun et => et.commit_date == d) =
          ([tagV1, tagV2, tagV4].filterMap (enrichOpt exFetch)).filter
            (fun et => et.commit_date == d) :=
  c1_sorted_stable [tagV1, tagV2, tagV4] exFetch [enrV2, enrV4, enrV1]
    (by decide)

/-- Claim C2 fails on the code: with the two-tag listing `[v3, v2]` where
`v3`'s commit fetch fails, the `continue` at line 223 skips the rate-limit
sleep, so the resolver performs no delay at all instead of the claimed
`N - 1 = 1` delays. -/
theorem c2_counterexample :
    (get_tags_sorted_by_commit_time (.ok [tagV3, tagV2]) exFetch).2 ≠
      List.replicate (2 - 1) SLEEP_TIME := by decide

/-- Claim C2 amended: the resolver performs one fixed `SLEEP_TIME = 3` delay
after each *successfully enriched* tag except the last listed tag; a tag whose
enrichment fails triggers no delay (its `continue` skips the sleep). The
delay trace is `SLEEP_TIME` repeated once per successful tag among all but
the last listed tag. -/
theorem c2_sleeps_per_success (tags : List RawTag)
    (fetch : String → Except DownloadError CommitInfo) :
    (get_tags_sorted_by_commit_time (.ok tags) fetch).2 =
      List.replicate
        (tags.dropLast.countP (fun t => (enrichOpt fetch t).isSome))
        SLEEP_TIME := by
  have h := processTags_sleeps fetch tags.length 1 tags (by omega)
  simpa [get_tags_sorted_by_commit_time] using h

/-- Claim C3 fails on the code: when the content-length HEAD probe fails, the
`DownloadError` propagates out of `download_file` before anything is written —
no destination file is produced and no local path returned, even though the
streaming body was available. -/
theorem c3_counterexample :
    download_file "https://h/f" (some "f")
        (.error (.timeout "https://h/f")) (.ok [[1, 2]]) =
      .error (.timeout "https://h/f") := rfl

/-- Claim C3 amended: whenever the HEAD probe succeeds — with any declared
size, zero or absent — `download_file` returns the destination path and writes
exactly the streamed chunks, whose total byte length is the sum of all chunk
lengths; the probe's declared size never changes what is written. A failing
probe instead aborts the download with the propagated error. -/
theorem c3_download_writes_all_chunks (url : String) (filename : Option String)
    (head : HeadResponse) (chunks : List (List Nat)) :
    download_file url filename (.ok head) (.ok chunks) =
      .ok ("./data/" ++ filename.getD ((url.splitOn "/").getLastD ""),
        writeChunks chunks) ∧
      (writeChunks chunks).length = (chunks.map List.length).sum :=
  ⟨rfl, writeChunks_length chunks⟩

/-- Claim C4 fails on the code: the unsupported-method `ValueError` is raised
inside the `try` block and caught by the final `except Exception` handler, so
the request fails with the *unknown-error* wrapping — the same kind as
`UnknownTransportError` — not with a kind distinct from it. -/
theorem c4_counterexample :
    safe_request "https://example.com" "PATCH" (.resp 200) =
      .error (.unknown "不支持的HTTP方法: PATCH") := rfl

/-- Claim C4 amended: for every method whose uppercasing is none of GET, POST,
DELETE, HEAD, the request fails — for every network outcome — with the
unknown-error wrapping whose message signals the unsupported method, which is
distinct from the Timeout, ConnectionFailure and HttpStatusError kinds but is
carried by the same unknown-error kind that wraps unclassified transport
failures, not by a dedicated usage-error kind. -/
theorem c4_unsupported_method (url method : String) (net : NetOutcome)
    (h : ¬ SUPPORTED_METHODS.contains (upper method)) :
    safe_request url method net =
        .error (.unknown ("不支持的HTTP方法: " ++ method)) ∧
      (∀ u, safe_request url method net ≠ .error (.timeout u)) ∧
      (∀ u, safe_request url method net ≠ .error (.connectionFailure u)) ∧
      (∀ c u, safe_request url method net ≠ .error (.httpStatus c u)) := by
  have he : safe_request url method net =
      .error (.unknown ("不支持的HTTP方法: " ++ method)) := by
    unfold safe_request
    rw [if_neg h]
  refine ⟨he, fun u hu => ?_, fun u hu => ?_, fun c u hu => ?_⟩ <;>
    rw [he] at hu <;> exact DownloadError.noConfusion (Except.error.inj hu)

/-- Witness for C4 at the lowercase method `"patch"` (the dispatch is
case-insensitive) and a successful network outcome. -/
theorem c4_witness :
    safe_request "https://example.com" "patch" (.resp 200) =
        .error (.unknown ("不支持的HTTP方法: " ++ "patch")) ∧
      (∀ u, safe_request "https://example.com" "patch" (.resp 200) ≠
        .error (.timeout u)) ∧
      (∀ u, safe_request "https://example.com" "patch" (.resp 200) ≠
        .error (.connectionFailure u)) ∧
      (∀ c u, safe_request "https://example.com" "patch" (.resp 200) ≠
        .error (.httpStatus c u)) :=
  c4_unsupported_method "https://example.com" "patch" (.resp 200) (by decide)

/-- Claim C5: a tag whose commit-enrichment fetch fails is absent from the
resolved sequence (no resolved tag carries its commit url), and its failure
does not prevent later tags from being enriched: every tag whose fetch
succeeds appears, enriched, in the resolved sequence. -/
theorem c5_failed_excluded_batch_continues (tags : List RawTag)
    (fetch : String → Except DownloadError CommitInfo)
    (res : List EnrichedTag)
    (h : (get_tags_sorted_by_commit_time (.ok tags) fetch).1 = .ok res) :
    (∀ t ∈ tags, ∀ e, fetch t.commitUrl = .error e →
        ∀ et ∈ res, et.commitUrl ≠ t.commitUrl) ∧
      (∀ t ∈ tags, ∀ c, fetch t.commitUrl = .ok c → enrichTag t c ∈ res) := by
  have hres : res = sortTags (tags.filterMap (enrichOpt fetch)) := by
    rw [get_tags_ok] at h
    exact (TagsResult.ok.inj h).symm
  subst hres
  constructor
  · intro t _ e he et hmem heq
    rw [mem_sortTags] at hmem
    obtain ⟨t2, _, hsome⟩ := List.mem_filterMap.mp hmem
    unfold enrichOpt at hsome
    cases hc : fetch t2.commitUrl with
    | error e2 => rw [hc] at hsome; cases hsome
    | ok c2 =>
      rw [hc] at hsome
      have het : et = enrichTag t2 c2 := (Option.some.inj hsome).symm
      have hurl : et.commitUrl = t2.commitUrl := by rw [het]; rfl
      rw [heq] at hurl
      rw [hurl, hc] at he
      cases he
  · intro t ht c hc
    rw [mem_sortTags]
    exact List.mem_filterMap.mpr ⟨t, ht, by simp [enrichOpt, hc]⟩

/-- Witness for C5 at the spec's scenario `[v2 (2024), v1 (2023), v3 (commit
fetch fails)]`: the resolved order is `[v2, v1]` and `v3` is excluded. -/
theorem c5_witness :
    (∀ t ∈ [tagV2, tagV1, tagV3], ∀ e, exFetch t.commitUrl = .error e →
        ∀ et ∈ [enrV2, enrV1], et.commitUrl ≠ t.commitUrl) ∧
      (∀ t ∈ [tagV2, tagV1, tagV3], ∀ c, exFetch t.commitUrl = .ok c →
        enrichTag t c ∈ [enrV2, enrV1]) :=
  c5_failed_excluded_batch_continues [tagV2, tagV1, tagV3] exFetch
    [enrV2, enrV1] (by decide)

/-- Claim C6: once the download phase runs, the orchestrator's exit status is
success (0) exactly when all four source routines (DockerDesktop, WSL, WSL2,
docker script) report success — any single failure yields overall failure —
and the phase invokes all four routines regardless of the outcomes. -/
theorem c6_all_sources_must_succeed (t : EnrichedTag) (rest : List EnrichedTag)
    (dd wsl wsl2 docker : Bool) :
    (main (.ok (t :: rest)) dd wsl wsl2 docker = 0 ↔
        dd = true ∧ wsl = true ∧ wsl2 = true ∧ docker = true) ∧
      (downloadPhase (SOURCES dd wsl wsl2 docker)).2 =
        ["DockerDesktop", "WSL", "WSL2", "docker"] := by
  cases dd <;> cases wsl <;> cases wsl2 <;> cases docker <;>
    simp [main, downloadPhase, SOURCES]

/-- Claim C7: a tag-list fetch failure makes the resolver return the
error-dict shape carrying the wrapped message — never the sequence shape, so
no partial sequence exists in that case — while a successful list fetch always
returns the sequence shape (possibly the empty sequence when every enrichment
failed); the two shapes are distinct. -/
theorem c7_error_shape_distinct :
    (∀ (e : DownloadError) (fetch : String → Except DownloadError CommitInfo),
        (get_tags_sorted_by_commit_time (.error e) fetch).1 = .err e.message) ∧
      (∀ (tags : List RawTag)
          (fetch : String → Except DownloadError CommitInfo),
        (get_tags_sorted_by_commit_time (.ok tags) fetch).1 =
          .ok (sortTags (tags.filterMap (enrichOpt fetch)))) ∧
      (∀ (m : String) (l : List EnrichedTag),
        TagsResult.err m ≠ TagsResult.ok l) :=
  ⟨fun _ _ => rfl, fun tags fetch => get_tags_ok tags fetch,
    fun _ _ h => TagsResult.noConfusion h⟩

/-- Claim C8: the size formatting maps 500 to "500 bytes", 2048 to "2.0 KB",
5·1024² to "5.0 MB" and 2·1024³ to "2.0 GB". -/
theorem c8_format_size_examples :
    format_size 500 = "500 bytes" ∧ format_size 2048 = "2.0 KB" ∧
      format_size (5 * 1024 * 1024) = "5.0 MB" ∧
      format_size (2 * 1024 * 1024 * 1024) = "2.0 GB" := by
  refine ⟨rfl, rfl, rfl, rfl⟩

/-- Claim C9: the unit thresholds are strict — exactly 1024 bytes stays
"1024 bytes", exactly 1024² stays "1024.0 KB", exactly 1024³ stays
"1024.0 MB"; one byte more moves each to the larger unit. -/
theorem c9_thresholds_strict :
    format_size 1024 = "1024 bytes" ∧ format_size 1025 = "1.0 KB" ∧
      format_size (1024 * 1024) = "1024.0 KB" ∧
      format_size (1024 * 1024 + 1) = "1.0 MB" ∧
      format_size (1024 * 1024 * 1024) = "1024.0 MB" ∧
      format_size (1024 * 1024 * 1024 + 1) = "1.0 GB" := by
  refine ⟨rfl, rfl, rfl, rfl, rfl, rfl⟩

/-- Claim C10: with a successfully fetched DockerDesktop release containing
none of the three target file names, the routine downloads nothing yet
returns True (a counted success); with a successfully fetched WSL release
lacking the single expected installer asset, that routine returns False
without raising. -/
theorem c10_dd_vacuous_true_wsl_absent_false
    (data dataW : Release) (dl dlW : String → Except DownloadError String)
    (hdd : ∀ a ∈ data.assets, a.name ∉ files_to_download data.tag_name)
    (hwsl : ∀ a ∈ dataW.assets,
      a.name ≠ "wsl." ++ dataW.tag_name ++ ".0.x64.msi") :
    get_DockerDesktop (.ok data) dl = (true, []) ∧
      get_WSL (.ok dataW) dlW = false :=
  ⟨ddLoop_no_match dl (files_to_download data.tag_name) data.assets hdd,
    wslLoop_no_match dlW _ dataW.assets hwsl⟩

/-- Witness for C10 at concrete releases whose asset lists miss every target
name. -/
theorem c10_witness :
    get_DockerDesktop (.ok ddRelease) exDl = (true, []) ∧
      get_WSL (.ok wslRelease) exDl = false :=
  c10_dd_vacuous_true_wsl_absent_false ddRelease wslRelease exDl exDl
    (by decide) (by decide)

end Sync
